import Mathlib

/-!
Verification of the Field-Discovery and Safe-Fill Engine of the pdf-generator
repository (`src/services/pdfGeneration.ts`, conservative revision, and the
sibling revisions of the same service).

Byte buffers are modelled as `List Char`: the source turns `Uint8Array` data
into a JavaScript string with `String.fromCharCode(bytes[i])`, one character
per byte, and all decisions are made on that string.  External pdf-lib calls
(`PDFDocument.load`, `getForm`, `save`, field handles) and the JavaScript
regex engine are abstracted as explicit environments/oracles; everything the
repository itself computes (indicator scans, validation, thresholds, name
filters, fill decisions, batch orchestration) is translated directly from the
source.
-/

namespace PDFGen

set_option maxRecDepth 10000

deriving instance DecidableEq for Except

/-- A raw byte buffer, one `Char` per byte (the `String.fromCharCode` view
used throughout the source). -/
abbrev Bytes := List Char

/-- JavaScript `String.prototype.toLowerCase` restricted to the ASCII data the
source compares (indicator lists and field names). -/
def lowerStr (s : String) : String := ⟨s.data.map Char.toLower⟩

/-- JavaScript `String.prototype.trim`. -/
def jsTrim (s : String) : String :=
  ⟨((s.data.dropWhile Char.isWhitespace).reverse.dropWhile Char.isWhitespace).reverse⟩

/-- Boolean substring test on char lists (`needle` occurs contiguously in
`haystack`), the semantics of JavaScript `haystack.includes(needle)`. -/
def listContains (needle : List Char) : List Char → Bool
  | [] => needle.isEmpty
  | c :: t => needle.isPrefixOf (c :: t) || listContains needle t

/-- JavaScript `haystack.includes(needle)`. -/
def jsIncludes (haystack needle : String) : Bool :=
  listContains needle.data haystack.data

/-! ## Document Classifier (`isXFAForm`, part_003 lines 340-392)

The classifier scans the first 500 KB of the byte stream for two independent
signal families: structural XFA indicators (case-sensitive) and a Romanian
government-form lexicon (case-insensitive).  The source returns
`isXFA || isRomanianGov`, where each side is `Array.prototype.some` over its
indicator list; the surrounding `try/catch` returns `false` on an internal
error. -/

/-- The structural XFA indicator family (source lines 351-363). -/
def xfaIndicators : List String :=
  ["/XFA", "<xfa:", "<xdp:", "<template xmlns:xfa",
   "application/vnd.adobe.xdp+xml", "XFA_", "xfa.form", "xfa.datasets",
   "xfa.template", "LiveCycle", "Designer"]

/-- The Romanian government-form domain lexicon (source lines 368-377). -/
def romanianGovIndicators : List String :=
  ["Ministerul", "Guvernul", "Agentia", "Primaria", "Consiliul",
   "ghid", "cerere", "formular"]

/-- The scanned window: `Math.min(pdfData.length, 500000)` leading bytes
(source lines 343-348). -/
def classifierScanText (b : Bytes) : List Char := b.take 500000

/-- `isXFAForm` (part_003 lines 340-392).  `true` = XFA / Complex handling,
`false` = standard handling.  The catch-all in the source returns `false`,
so an internal scan error also yields `false`. -/
def isXFAForm (b : Bytes) : Bool :=
  let pdfText := classifierScanText b
  let isXFA := xfaIndicators.any fun ind => listContains ind.data pdfText
  let isRomanianGov := romanianGovIndicators.any fun ind =>
    listContains (lowerStr ind).data (pdfText.map Char.toLower)
  isXFA || isRomanianGov

/-- Number of structural indicators that actually occur in the scanned
window (measurement used to state C3; the source itself only tests
existence via `some`). -/
def structuralSignalCount (b : Bytes) : Nat :=
  (xfaIndicators.filter fun ind => listContains ind.data (classifierScanText b)).length

/-- Number of domain-lexicon indicators that occur (case-insensitively) in
the scanned window (measurement used to state C3). -/
def domainSignalCount (b : Bytes) : Nat :=
  (romanianGovIndicators.filter fun ind =>
    listContains (lowerStr ind).data ((classifierScanText b).map Char.toLower)).length

/-! ## Field-name validation and type guessing
(`isValidFieldName`, `guessFieldType`, part_003 lines 829-897) -/

/-- Words rejected by `/^(form|data|template|...)$/i` (source line 832). -/
def structuralWordDeny : List String :=
  ["form", "data", "template", "subform", "exdata", "bind", "xfa", "pdf",
   "page", "document", "root", "datasets", "config", "xmlns", "version",
   "encoding"]

/-- Words rejected by `/^(true|false|null|undefined|yes|no)$/i`. -/
def booleanWordDeny : List String := ["true", "false", "null", "undefined", "yes", "no"]

/-- Leading tokens rejected by `/^(http|https|ftp|file):/i`. -/
def urlSchemeDeny : List String := ["http:", "https:", "ftp:", "file:"]

/-- Endings rejected by `/\.(pdf|xml|html|js|css|xdp|xfa)$/i`. -/
def fileExtensionDeny : List String :=
  [".pdf", ".xml", ".html", ".js", ".css", ".xdp", ".xfa"]

/-- Words rejected by `/^(adobe|acrobat|reader|designer|livecycle)$/i`. -/
def softwareWordDeny : List String := ["adobe", "acrobat", "reader", "designer", "livecycle"]

/-- Words rejected by `/^(font|color|size|width|height|margin|padding)$/i`. -/
def styleWordDeny : List String :=
  ["font", "color", "size", "width", "height", "margin", "padding"]

/-- Characters rejected by `/[<>{}[\]]/` (XML/JSON bracket characters). -/
def bracketChars : List Char := ['<', '>', '\x7b', '\x7d', '[', ']']

/-- `isValidFieldName` (part_003 lines 829-862): length in `[2,100]`, none of
the deny patterns matches, and the candidate contains a letter.  All the
regexes in the source's `invalidPatterns` array are anchored alternations or
character classes, translated here as direct string predicates. -/
def isValidFieldName (name : String) : Bool :=
  let cs := name.data
  let low := lowerStr name
  if cs.length < 2 || 100 < cs.length then false
  else if structuralWordDeny.contains low then false
  else if !cs.isEmpty && cs.all Char.isDigit then false
  else if cs.all Char.isWhitespace then false
  else if cs.any (fun c => bracketChars.contains c) then false
  else if booleanWordDeny.contains low then false
  else if urlSchemeDeny.any (fun p => p.data.isPrefixOf low.data) then false
  else if fileExtensionDeny.any (fun e => e.data.isSuffixOf low.data) then false
  else if softwareWordDeny.contains low then false
  else if styleWordDeny.contains low then false
  else if (match cs with | [] => false | c :: _ => !c.isAlpha) then false
  else cs.any Char.isAlpha

/-- The field type vocabulary of `PDFField['type']` (src/types/index.ts). -/
inductive FieldType
  | text | checkbox | radio | dropdown | date | number
deriving DecidableEq, Repr

/-- A discovered field descriptor (`PDFField`, src/types/index.ts). -/
structure PDFField where
  name : String
  type : FieldType
  required : Bool
  options : Option (List String) := none
deriving DecidableEq, Repr

/-- `guessFieldType` (part_003 lines 865-897): ordered keyword rules over the
lowercased name. -/
def guessFieldType (name : String) : FieldType :=
  let l := lowerStr name
  let has := fun (pat : String) => listContains pat.data l.data
  if has "checkbox" || has "check" || has "minor" || has "electric" ||
     has "hibrid" || has "reprezentant" || has "beneficiar" then .checkbox
  else if has "dropdown" || has "select" || has "judet" || has "localitate" ||
     has "tip_" || has "autovehicul" then .dropdown
  else if has "email" then .text
  else if has "data" || has "date" || has "eliberat" || has "emis" then .date
  else if has "suma" || has "numar" || has "cod" || has "telefon" ||
     has "cnp" || has "ecotichete" then .number
  else .text

/-! ## Field Discovery Pipeline (`extractFormFields`, part_003 lines 507-614)

pdf-lib parsing and the JavaScript regex engine are abstracted:

* `DiscoveryEnv.load` models `PDFDocument.load` (`none` = the load throws;
  the surrounding catch rethrows).  A loaded document exposes its page count
  and, when `getForm()` succeeds, the raw pdf-lib field handles.
* A `ScanOracle` models one stage's array of compiled regex objects: for a
  pattern index and a `lastIndex`, `exec` returns the candidate string the
  source would extract from the match (the captured group, or for the
  Romanian word patterns the whole match) together with the updated
  `lastIndex`, or `none` when the pattern no longer matches.  Everything
  after `pattern.exec` — trimming, `isValidFieldName`, `Set` insertion order,
  descriptor construction — is translated from the source. -/

/-- A raw pdf-lib field handle as seen by Method 1 (source lines 532-577):
`getName()` result (`none` = the per-field try/catch skipped the field), the
constructor name used for type sniffing, and the `getOptions()` result where
available. -/
structure RawFormField where
  nameOpt : Option String
  ctorName : String
  options : Option (List String) := none
deriving DecidableEq, Repr

/-- A successfully loaded document (`PDFDocument.load` result):
`getPageCount()` and the `getForm()` outcome (`none` = `getForm` threw, the
Method 1 catch absorbs it). -/
structure LoadedDoc where
  pageCount : Nat
  form : Option (List RawFormField)
deriving DecidableEq, Repr

/-- An abstract stage of compiled regex literals.  `exec b i idx` runs
pattern `i` of the stage's `patterns` array against the scanned text of `b`
from position `idx`. -/
structure ScanOracle where
  patternCount : Nat
  exec : Bytes → Nat → Nat → Option (String × Nat)

/-- The source line `pattern.lastIndex = 0  // Reset regex state` executed
before each `while (pattern.exec(...))` loop: whatever state the engine is
in, scanning restarts at position 0. -/
def resetLastIndex (_previous : Nat) : Nat := 0

/-- The `while ((match = pattern.exec(pdfText)) !== null)` loop, collecting
candidate strings in match order.  Fuel bounds the iteration: every pattern
in the source matches at least one character, so a scan over `n` characters
yields at most `n` matches. -/
def execLoop (exec : Nat → Option (String × Nat)) : Nat → Nat → List String
  | 0, _ => []
  | fuel + 1, idx =>
    match exec idx with
    | none => []
    | some (s, idx') => s :: execLoop exec fuel idx'

/-- All candidate strings of one stage, pattern by pattern in the order of
the stage's `patterns` array, each loop preceded by the `lastIndex` reset.
`states` carries the engines' residual `lastIndex` values (the pattern
objects are recreated per call, and the source resets them anyway). -/
def harvestCands (o : ScanOracle) (b : Bytes) (states : List Nat) : List String :=
  (List.range o.patternCount).flatMap fun i =>
    execLoop (o.exec b i) (b.length + 1) (resetLastIndex (states.getD i 0))

/-- JavaScript `Set` accumulation: keep the first occurrence of each
candidate, preserving insertion order (`Array.from(new Set(...))`). -/
def dedupKeepFirst (l : List String) : List String :=
  l.foldl (fun acc s => if acc.contains s then acc else acc ++ [s]) []

/-- The accepted, deduplicated field names of one scan: each match is
trimmed, validated with `isValidFieldName`, and added to the `Set`
(source lines 800-814). -/
def acceptedNames (cands : List String) : List String :=
  dedupKeepFirst ((cands.map jsTrim).filter isValidFieldName)

/-- `extractFieldsFromRawPDF` (part_003 lines 716-826): harvest candidates
with the stage's 35 patterns, validate and deduplicate, then build
descriptors with `guessFieldType` and `required: false`. -/
def extractFieldsFromRawPDF (o : ScanOracle) (b : Bytes) (states : List Nat) :
    List PDFField :=
  (acceptedNames (harvestCands o b states)).map fun n =>
    { name := n, type := guessFieldType n, required := false }

/-- The fixed Romanian fallback catalog (source lines 676-703), name and
native type as written; the trailing `map` adds `required: false`. -/
def commonRomanianFields : List (String × FieldType) :=
  [("nume_solicitant", .text), ("prenume_solicitant", .text), ("cnp", .text),
   ("seria_ci", .text), ("numar_ci", .text), ("eliberat_de", .text),
   ("data_eliberare", .date), ("telefon", .text), ("email", .text),
   ("judet", .dropdown), ("localitate", .text), ("strada", .text),
   ("numar_strada", .text), ("bloc", .text), ("scara", .text),
   ("etaj", .text), ("apartament", .text), ("cod_postal", .text),
   ("beneficiar_minor", .checkbox), ("tip_autovehicul", .dropdown),
   ("autovehicul_electric", .checkbox), ("autovehicul_hibrid", .checkbox),
   ("suma_solicitata", .number), ("numar_ecotichete", .number),
   ("reprezentant_legal", .checkbox), ("imputernicit", .checkbox)]

/-- The Romanian fallback catalog as returned (source lines 705-708). -/
def romanianFallbackCatalog : List PDFField :=
  commonRomanianFields.map fun p =>
    { name := p.1, type := p.2, required := false }

/-- `extractRomanianFormFields` (part_003 lines 617-713): harvest with the
stage's 10 patterns; if any names survive validation return them as
descriptors, otherwise return the fixed fallback catalog. -/
def extractRomanianFormFields (o : ScanOracle) (b : Bytes) (states : List Nat) :
    List PDFField :=
  let names := acceptedNames (harvestCands o b states)
  if names.isEmpty then romanianFallbackCatalog
  else names.map fun n => { name := n, type := guessFieldType n, required := false }

/-- Method 1's constructor-name type sniffing (source lines 539-566). -/
def typeFromCtor (ctor : String) : FieldType :=
  if jsIncludes ctor "Checkbox" || jsIncludes ctor "CheckBox" then .checkbox
  else if jsIncludes ctor "Radio" then .radio
  else if jsIncludes ctor "Dropdown" || jsIncludes ctor "Choice" then .dropdown
  else if jsIncludes ctor "Text" then .text
  else .text

/-- Method 1, the structured-catalog read (source lines 526-580): walk the
pdf-lib field handles, skip a field whose `getName()` threw, sniff the type
from the constructor name, and attach options for radio/dropdown fields.
Every descriptor is pushed with `required: false`. -/
def method1Fields : Option (List RawFormField) → List PDFField
  | none => []
  | some fs =>
    fs.filterMap fun f =>
      f.nameOpt.map fun n =>
        let t := typeFromCtor f.ctorName
        { name := n, type := t, required := false,
          options := if t = .radio || t = .dropdown then f.options else none }

/-- The abstract pdf-lib/regex environment of the discovery pipeline. -/
structure DiscoveryEnv where
  load : Bytes → Option LoadedDoc
  raw : ScanOracle
  rom : ScanOracle

/-- Residual regex-engine state of the two scanning stages. -/
abbrev ScanStates := List Nat × List Nat

/-- `extractFormFields` (part_003 lines 507-614).  Method 1 always runs;
Method 2 runs when fewer than 5 fields were found or the document is
XFA-classified, and its output replaces the current one only when strictly
larger; Method 3 runs when the current catalog still has fewer than 10
fields, with the same strictly-larger replacement rule.  A load failure is
rethrown by the outer catch (`Except.error`). -/
def extractFormFields (env : DiscoveryEnv) (b : Bytes) (sts : ScanStates) :
    Except Unit (List PDFField × Nat) :=
  match env.load b with
  | none => .error ()
  | some d =>
    let isXFA := isXFAForm b
    let e1 := method1Fields d.form
    let e2 :=
      if e1.length < 5 || isXFA then
        let rawFields := extractFieldsFromRawPDF env.raw b sts.1
        if e1.length < rawFields.length then rawFields else e1
      else e1
    let e3 :=
      if e2.length < 10 then
        let romanianFields := extractRomanianFormFields env.rom b sts.2
        if e2.length < romanianFields.length then romanianFields else e2
      else e2
    .ok (e3, d.pageCount)

/-- Modelled from the spec, for claim C6 only: the claimed single-threshold
cascade — "strategies run in order; each stage declares itself sufficient
when it yields at least a configurable minimum field count"; "stops at the
first strategy producing an adequate field set, otherwise keeps escalating";
"across stages, only one stage's output is used".  When no stage is
sufficient, the last stage's output is used (the reading most favorable to
the claim). -/
def specSingleThresholdDiscover (t : Nat) (env : DiscoveryEnv) (b : Bytes)
    (sts : ScanStates) : Option (List PDFField) :=
  match env.load b with
  | none => none
  | some d =>
    let s1 := method1Fields d.form
    if t ≤ s1.length then some s1
    else
      let s2 := extractFieldsFromRawPDF env.raw b sts.1
      if t ≤ s2.length then some s2
      else some (extractRomanianFormFields env.rom b sts.2)

/-! ## Safe-Fill Engine
(`generateSinglePDF`, `handleXFAForm`, `handleStandardForm`,
`fillSingleFieldSafely`, part_003 lines 6-338)

The pdf-lib document handle is abstracted as `FillDoc` (page count plus the
`getForm()` outcome); a fill step that succeeds records a `Write` (the
mutation the source performs on the field handle); `FillEnv.save` models
`pdfDoc.save(options)` applied to the document with those writes (`none` =
the save throws); `FillEnv.canReparse` models whether `PDFDocument.load`
succeeds on produced bytes inside `validateGeneratedPDF`. -/

/-- The pdf-lib field classes relevant to the fill loop. -/
inductive FieldKind
  | textField | checkBox | radioGroup | dropdown | other
deriving DecidableEq, Repr

/-- A fillable form field handle (`form.getField` result). -/
structure FormField where
  name : String
  kind : FieldKind
  options : List String := []
deriving DecidableEq, Repr

/-- A loaded document on the fill path: `getPageCount()` plus the
`getForm()` outcome (`none` = `getForm` threw). -/
structure FillDoc where
  pageCount : Nat
  form : Option (List FormField)
deriving DecidableEq, Repr

/-- A mutation performed on a located field handle. -/
inductive Write
  | setText (field value : String)
  | check (field : String)
  | uncheck (field : String)
  | select (field option : String)
deriving DecidableEq, Repr

/-- The literal option object passed to `pdfDoc.save` (source lines 112-118
and 179-184). -/
structure SaveOpts where
  useObjectStreams : Bool
  addDefaultPage : Bool
  updateFieldAppearances : Bool
  preserveStructure : Bool := false
deriving DecidableEq, Repr

/-- The abstract pdf-lib environment of the fill engine. -/
structure FillEnv where
  load : Bytes → Option FillDoc
  save : FillDoc → List Write → SaveOpts → Option Bytes
  canReparse : Bytes → Bool

/-- `FieldMapping` (src/types/index.ts).  `csvColumnName`/`defaultValue` use
the JavaScript convention that the empty string is falsy/absent. -/
structure FieldMapping where
  pdfFieldName : String
  csvColumnName : String
  defaultValue : String := ""
deriving DecidableEq, Repr

/-- A data record: stable id plus the column→value map (`User`,
src/types/index.ts). -/
structure User where
  id : String
  data : List (String × String) := []
deriving DecidableEq, Repr

/-- `user[col]` — `some v` when the column is present (`!== undefined`). -/
def userLookup (u : User) (col : String) : Option String := u.data.lookup col

/-- `parseBoolean` (part_003 lines 335-338): the fixed truthy vocabulary,
lowercased and trimmed. -/
def parseBoolean (value : String) : Bool :=
  let lowerValue := jsTrim (lowerStr value)
  ["true", "yes", "1", "on", "da", "checked", "x", "adevarat"].contains lowerValue

/-- The control characters stripped by `sanitizeTextValue`
(`/[\x00-\x08\x0B\x0C\x0E-\x1F\x7F]/g`, source line 323). -/
def isStrippedControl (c : Char) : Bool :=
  (c.toNat ≤ 0x08) || c.toNat = 0x0B || c.toNat = 0x0C ||
  (0x0E ≤ c.toNat && c.toNat ≤ 0x1F) || c.toNat = 0x7F

/-- `sanitizeTextValue` (part_003 lines 320-333): strip control characters
and angle brackets, trim, then cap the length. -/
def sanitizeTextValue (value : String) (maxLength : Nat) : String :=
  let sanitized := jsTrim ⟨(value.data.filter fun c => !isStrippedControl c).filter
    fun c => c ≠ '<' && c ≠ '>'⟩
  ⟨sanitized.data.take maxLength⟩

/-- The value resolution of `fillSingleFieldSafely` (source lines 212-218):
the record's column value when the mapping names a column and the record
defines it, else the (truthy) default value, else the empty string. -/
def resolveValue (m : FieldMapping) (u : User) : String :=
  if m.csvColumnName ≠ "" ∧ (userLookup u m.csvColumnName).isSome then
    jsTrim ((userLookup u m.csvColumnName).getD "")
  else if m.defaultValue ≠ "" then jsTrim m.defaultValue
  else ""

/-- `fillSingleFieldSafely` (part_003 lines 206-286): resolve the value,
locate the field (`none` from `find?` = `form.getField` threw), then fill by
field class.  Returns the mutation performed (if any) and the source's
boolean success result; every failure mode is absorbed into
`(none, false)`. -/
def fillSingleFieldSafely (fields : List FormField) (m : FieldMapping)
    (u : User) : Option Write × Bool :=
  let value := resolveValue m u
  if value = "" then (none, false)
  else
    match fields.find? (fun f => f.name = m.pdfFieldName) with
    | none => (none, false)
    | some field =>
      match field.kind with
      | .textField =>
        (some (.setText field.name (sanitizeTextValue value 200)), true)
      | .checkBox =>
        if parseBoolean value then (some (.check field.name), true)
        else (some (.uncheck field.name), true)
      | .radioGroup =>
        if field.options.contains value then (some (.select field.name value), true)
        else (none, false)
      | .dropdown =>
        if field.options.contains value then (some (.select field.name value), true)
        else (none, false)
      | .other => (none, false)

/-- `selectCriticalFields` (part_003 lines 288-303): keep the mappings whose
field name contains a critical name fragment (case-insensitively), then
`slice(0, maxFields)`. -/
def criticalFieldNames : List String :=
  ["nume", "prenume", "name", "first_name", "last_name",
   "cnp", "id", "number", "numar",
   "email", "telefon", "phone"]

/-- See `criticalFieldNames`; this is the filter + slice of the source. -/
def selectCriticalFields (fieldMappings : List FieldMapping) (maxFields : Nat) :
    List FieldMapping :=
  (fieldMappings.filter fun m =>
    criticalFieldNames.any fun critical =>
      jsIncludes (lowerStr m.pdfFieldName) (lowerStr critical)).take maxFields

/-- `validateFieldMappings` (part_003 lines 305-318): keep mappings that
carry a data source and whose field exists in the form. -/
def validateFieldMappings (fields : List FormField) (ms : List FieldMapping) :
    List FieldMapping :=
  let availableFields := fields.map (·.name)
  ms.filter fun m =>
    (m.csvColumnName ≠ "" || m.defaultValue ≠ "") &&
    availableFields.contains m.pdfFieldName

/-- The standard-form fill loop (part_003 lines 158-176): writes performed,
fields attempted, fields filled. -/
def standardFill (fields : List FormField) (u : User) (ms : List FieldMapping) :
    List Write × Nat × Nat :=
  let safeFieldMappings := validateFieldMappings fields ms
  let results := safeFieldMappings.map fun m => fillSingleFieldSafely fields m u
  (results.filterMap Prod.fst, safeFieldMappings.length, results.countP Prod.snd)

/-- The save options of the standard path (source lines 180-184):
`updateFieldAppearances: fieldsFilledCount > 0`. -/
def standardSaveOpts (fieldsFilledCount : Nat) : SaveOpts :=
  { useObjectStreams := false, addDefaultPage := false,
    updateFieldAppearances := decide (0 < fieldsFilledCount) }

/-- The save options of the XFA path (source lines 112-118). -/
def xfaSaveOpts : SaveOpts :=
  { useObjectStreams := false, addDefaultPage := false,
    updateFieldAppearances := false, preserveStructure := true }

/-- `validateGeneratedPDF` (part_003 lines 394-420): the produced bytes must
re-parse, be at least 1000 bytes, and start with `%PDF-` (checked on the
first 8 bytes); any failure (including a reparse throw) yields `false`. -/
def validateGeneratedPDF (env : FillEnv) (pdfBytes : Bytes) : Bool :=
  if !env.canReparse pdfBytes then false
  else if pdfBytes.length < 1000 then false
  else if !("%PDF-".data.isPrefixOf (pdfBytes.take 8)) then false
  else true

/-- `handleStandardForm` (part_003 lines 133-204): no accessible form, a
save failure, or a failed validation all return the original bytes; only a
saved and validated buffer is returned. -/
def handleStandardForm (env : FillEnv) (pdfDoc : FillDoc) (originalBytes : Bytes)
    (u : User) (ms : List FieldMapping) : Bytes :=
  match pdfDoc.form with
  | none => originalBytes
  | some fields =>
    let fr := standardFill fields u ms
    match env.save pdfDoc fr.1 (standardSaveOpts fr.2.2) with
    | none => originalBytes
    | some pdfBytes =>
      if validateGeneratedPDF env pdfBytes then pdfBytes else originalBytes

/-- The XFA fill loop (part_003 lines 97-109) over the selected critical
mappings: writes performed and fields filled. -/
def xfaFill (fields : List FormField) (u : User) (toFill : List FieldMapping) :
    List Write × Nat :=
  let results := toFill.map fun m => fillSingleFieldSafely fields m u
  (results.filterMap Prod.fst, results.countP Prod.snd)

/-- `handleXFAForm` (part_003 lines 62-131): without an accessible AcroForm
layer return the original; otherwise fill at most the 3 selected critical
mappings and save with the XFA options; a save failure returns the
original.  No post-save validation is performed on this path. -/
def handleXFAForm (env : FillEnv) (pdfDoc : FillDoc) (originalBytes : Bytes)
    (u : User) (ms : List FieldMapping) : Bytes :=
  match pdfDoc.form with
  | none => originalBytes
  | some fields =>
    let fieldsToFill := selectCriticalFields ms 3
    let fr := xfaFill fields u fieldsToFill
    match env.save pdfDoc fr.1 xfaSaveOpts with
    | none => originalBytes
    | some pdfBytes => pdfBytes

/-- `generateSinglePDF` (part_003 lines 6-60).  An empty template throws and
is caught by the outer catch, which returns the template bytes; a load
failure returns the original; otherwise the XFA or standard handler runs.
The function's total `Bytes` result embodies the outer `try/catch`: no
exception escapes. -/
def generateSinglePDF (env : FillEnv) (templateFileData : Bytes) (u : User)
    (ms : List FieldMapping) : Bytes :=
  let originalBytes := templateFileData
  if originalBytes.length = 0 then originalBytes
  else
    let isXFA := isXFAForm originalBytes
    match env.load originalBytes with
    | none => originalBytes
    | some pdfDoc =>
      if isXFA then handleXFAForm env pdfDoc originalBytes u ms
      else handleStandardForm env pdfDoc originalBytes u ms

/-! ## Batch Orchestrator (`generateBulkPDFs`, part_003 lines 422-505)

The orchestrator drives `this.generateSinglePDF` once per record inside a
per-record `try/catch`.  The per-record generation is a parameter
(`gen i u`): its `catch` arm exists precisely because the callee may throw,
and the batch-isolation contract quantifies over that behavior.  The zip is
modelled as its entry list; the rendered error text and the summary string
(which interpolates `new Date().toISOString()`) are modelled by their
structured content. -/

/-- One entry of the produced zip archive. -/
inductive ZipEntry
  | pdf (filename : String) (bytes : Bytes)
  | errorNote (filename : String) (userId : String)
  | summary (totalUsers successCount errorCount : Nat)
deriving DecidableEq, Repr

/-- A `{current, total, status}` progress event (`GenerationProgress`). -/
structure Progress where
  current : Nat
  total : Nat
  status : String
deriving DecidableEq, Repr

/-- The name-like columns probed for a friendlier filename
(source line 450). -/
def bulkNameFields : List String :=
  ["nume", "name", "first_name", "prenume", "nume_solicitant"]

/-- `replace(/\s+/g, '_')`: every maximal whitespace run becomes one
underscore. -/
def collapseWhitespaceRuns : List Char → List Char
  | [] => []
  | c :: t =>
    if c.isWhitespace then '_' :: collapseWhitespaceRuns (t.dropWhile Char.isWhitespace)
    else c :: collapseWhitespaceRuns t
termination_by l => l.length
decreasing_by
  · exact Nat.lt_succ_of_le (List.dropWhile_sublist _).length_le
  · simp

/-- The filename fragment sanitizer (source lines 458-461): drop everything
but letters, digits and whitespace, replace whitespace runs with `_`, cap at
20 characters. -/
def sanitizeFilenamePart (s : String) : String :=
  ⟨(collapseWhitespaceRuns (s.data.filter fun c => c.isAlphanum || c.isWhitespace)).take 20⟩

/-- The output filename of one record (source lines 446-466). -/
def bulkFilename (ms : List FieldMapping) (sectionName : String) (u : User) :
    String :=
  let base := sectionName ++ "_" ++ u.id ++ ".pdf"
  match ms.find? (fun m =>
      m.csvColumnName ≠ "" &&
      bulkNameFields.any fun nf => jsIncludes (lowerStr m.csvColumnName) (lowerStr nf)) with
  | none => base
  | some nameField =>
    match userLookup u nameField.csvColumnName with
    | none => base
    | some v =>
      if v = "" then base
      else
        let name := sanitizeFilenamePart v
        if name = "" then base
        else sectionName ++ "_" ++ name ++ "_" ++ u.id ++ ".pdf"

/-- The body of one loop iteration (source lines 443-479): a successful
generation files the PDF, a thrown exception files an `ERROR_<id>.txt`
note. -/
def bulkEntryFor (gen : Nat → User → Except String Bytes)
    (ms : List FieldMapping) (sectionName : String) : Nat × User → ZipEntry
  | (i, u) =>
    match gen i u with
    | .ok pdfBytes => .pdf (bulkFilename ms sectionName u) pdfBytes
    | .error _ => .errorNote ("ERROR_" ++ u.id ++ ".txt") u.id

/-- `true` for the per-record entries (PDF or error note), `false` for the
summary (measurement helper for C8). -/
def isRecordEntry : ZipEntry → Bool
  | .pdf _ _ => true
  | .errorNote _ _ => true
  | .summary _ _ _ => false

/-- `true` exactly for error-note entries (measurement helper for C8). -/
def isErrorEntry : ZipEntry → Bool
  | .errorNote _ _ => true
  | _ => false

/-- `true` exactly for filed PDFs (measurement helper for C8). -/
def isPdfEntry : ZipEntry → Bool
  | .pdf _ _ => true
  | _ => false

/-- `generateBulkPDFs` (part_003 lines 422-505): iterate the records in
order, emitting `{current: i, total: N, status: 'processing'}` before each,
filing a PDF or an error note per record, appending the generation summary,
and finally emitting `{current: N, total: N, status: 'completed'}`. -/
def generateBulkPDFs (gen : Nat → User → Except String Bytes)
    (users : List User) (ms : List FieldMapping) (sectionName : String) :
    List ZipEntry × List Progress :=
  let n := users.length
  let recordEntries := users.enum.map (bulkEntryFor gen ms sectionName)
  let successCount := recordEntries.countP isPdfEntry
  let errorCount := recordEntries.countP isErrorEntry
  (recordEntries ++ [.summary n successCount errorCount],
   ((List.range n).map fun i => ⟨i, n, "processing"⟩) ++ [⟨n, n, "completed"⟩])

/-! ## Helper lemmas -/

theorem one_le_filter_length_iff_any {α : Type} (p : α → Bool) (l : List α) :
    1 ≤ (l.filter p).length ↔ l.any p = true := by
  constructor
  · intro h
    obtain ⟨x, hx⟩ := List.exists_mem_of_length_pos h
    have hm := List.mem_filter.mp hx
    exact List.any_eq_true.mpr ⟨x, hm.1, hm.2⟩
  · intro h
    obtain ⟨x, hx, hp⟩ := List.any_eq_true.mp h
    exact List.length_pos.mpr (List.ne_nil_of_mem (List.mem_filter.mpr ⟨hx, hp⟩))

/-! ## Claims about the Document Classifier -/

/-- C3 (counterexample): the buffer `"/XFA"` has exactly one structural
signal match and no domain match, yet the classifier classifies it Complex
(`true`); the claimed `≥ 2` threshold would classify it Simple.  The code's
decision rule is `Array.prototype.some`, i.e. a threshold of one. -/
theorem isXFAForm_single_signal_complex :
    structuralSignalCount "/XFA".data = 1 ∧ domainSignalCount "/XFA".data = 0 ∧
    isXFAForm "/XFA".data = true := by
  refine ⟨by decide, by decide, by decide⟩

/-- C3 (amended): the classifier classifies a buffer Complex if and only if
the signal-match count across the two families is at least **1** — a single
structural or domain match suffices; a buffer with no match in either family
is classified Simple. -/
theorem isXFAForm_iff_one_signal (b : Bytes) :
    isXFAForm b = true ↔ 1 ≤ structuralSignalCount b + domainSignalCount b := by
  simp only [isXFAForm, structuralSignalCount, domainSignalCount, Bool.or_eq_true]
  rw [← one_le_filter_length_iff_any, ← one_le_filter_length_iff_any]
  omega

/-- C4 (counterexample): the classifier maps the empty buffer to `false`
(Simple/standard handling), not to Complex as claimed; the source's
catch-all likewise returns `false`. -/
theorem isXFAForm_empty_simple : isXFAForm ([] : Bytes) = false := by decide

/-- C4 (amended): the classifier is total — it returns a classification for
every buffer by construction — and an empty buffer is classified Simple
(`false`), the non-XFA default, exactly as the error catch-all also returns
`false`; neither case yields the Complex classification the claim
describes. -/
theorem isXFAForm_empty_false (b : Bytes) (h : b.length = 0) :
    isXFAForm b = false := by
  have hb : b = [] := List.length_eq_zero.mp h
  subst hb
  decide

/-- C4 (witness): the amended theorem applied at the empty buffer. -/
theorem isXFAForm_empty_false_witness :
    ([] : Bytes).length = 0 ∧ isXFAForm ([] : Bytes) = false :=
  ⟨rfl, isXFAForm_empty_false [] rfl⟩

/-! ## Claims about the Safe-Fill Engine's Complex-document restraint -/

/-- C5: for a mapping list larger than the priority-subset bound, the subset
actually attempted on the XFA path (`selectCriticalFields ms 3`, the list
`handleXFAForm` iterates) has at most 3 ≤ 5 elements, each drawn from the
input mappings, and every selected mapping's field name contains one of the
configured critical name fragments. -/
theorem selectCriticalFields_bounded (ms : List FieldMapping)
    (_h : 3 < ms.length) :
    (selectCriticalFields ms 3).length ≤ 3 ∧
    (∀ m ∈ selectCriticalFields ms 3,
      (criticalFieldNames.any fun critical =>
        jsIncludes (lowerStr m.pdfFieldName) (lowerStr critical)) = true) ∧
    (selectCriticalFields ms 3).Sublist ms := by
  refine ⟨?_, ?_, ?_⟩
  · exact List.length_take_le 3 _
  · intro m hm
    have hmem := (List.take_sublist 3 _).subset hm
    exact (List.mem_filter.mp hmem).2
  · exact (List.take_sublist 3 _).trans (List.filter_sublist _)

/-- C5 (witness): a 5-element mapping list; three of the four critical-name
matches survive the `slice(0, 3)`. -/
theorem selectCriticalFields_bounded_witness :
    3 < ([⟨"nume_a", "", ""⟩, ⟨"zzz", "", ""⟩, ⟨"email_x", "", ""⟩,
          ⟨"aphone", "", ""⟩, ⟨"cnp_b", "", ""⟩] : List FieldMapping).length ∧
    ((selectCriticalFields [⟨"nume_a", "", ""⟩, ⟨"zzz", "", ""⟩,
        ⟨"email_x", "", ""⟩, ⟨"aphone", "", ""⟩, ⟨"cnp_b", "", ""⟩] 3).length ≤ 3 ∧
     (∀ m ∈ selectCriticalFields [⟨"nume_a", "", ""⟩, ⟨"zzz", "", ""⟩,
        ⟨"email_x", "", ""⟩, ⟨"aphone", "", ""⟩, ⟨"cnp_b", "", ""⟩] 3,
       (criticalFieldNames.any fun critical =>
         jsIncludes (lowerStr m.pdfFieldName) (lowerStr critical)) = true) ∧
     (selectCriticalFields [⟨"nume_a", "", ""⟩, ⟨"zzz", "", ""⟩,
        ⟨"email_x", "", ""⟩, ⟨"aphone", "", ""⟩, ⟨"cnp_b", "", ""⟩] 3).Sublist
       [⟨"nume_a", "", ""⟩, ⟨"zzz", "", ""⟩, ⟨"email_x", "", ""⟩,
        ⟨"aphone", "", ""⟩, ⟨"cnp_b", "", ""⟩]) :=
  ⟨by decide, selectCriticalFields_bounded _ (by decide)⟩

/-! ## Claims about fallback safety and validation -/

/-- C2: if the post-fill validation of the saved bytes fails — the bytes do
not re-parse, are under the 1000-byte minimum, or lack the `%PDF-` header —
the standard-form handler returns exactly the original template bytes. -/
theorem handleStandardForm_validation_fallback (env : FillEnv)
    (pdfDoc : FillDoc) (originalBytes : Bytes) (u : User)
    (ms : List FieldMapping) (fields : List FormField) (pdfBytes : Bytes)
    (hform : pdfDoc.form = some fields)
    (hsave : env.save pdfDoc (standardFill fields u ms).1
      (standardSaveOpts (standardFill fields u ms).2.2) = some pdfBytes)
    (hval : validateGeneratedPDF env pdfBytes = false) :
    handleStandardForm env pdfDoc originalBytes u ms = originalBytes := by
  simp only [handleStandardForm, hform, hsave, hval]
  simp

/-- Fixture for the C2 witness: an empty form, a save oracle that produces
a 4-byte buffer (which fails the minimum-size check), and a reparse oracle
that accepts everything. -/
def formV : List FormField := []

/-- See `formV`. -/
def docV : FillDoc := ⟨1, some formV⟩

/-- See `formV`: the corrupt save product. -/
def junkV : Bytes := "junk".data

/-- See `formV`. -/
def envV : FillEnv := ⟨fun _ => some docV, fun _ _ _ => some junkV, fun _ => true⟩

/-- See `formV`: the original template bytes of the witness scenario. -/
def origV : Bytes := "%PDF-1.4 original contents".data

/-- C2 (witness): the fallback theorem applied to the corrupt-save
fixture. -/
theorem handleStandardForm_validation_fallback_witness :
    docV.form = some formV ∧
    envV.save docV (standardFill formV ⟨"u1", []⟩ []).1
      (standardSaveOpts (standardFill formV ⟨"u1", []⟩ []).2.2) = some junkV ∧
    validateGeneratedPDF envV junkV = false ∧
    handleStandardForm envV docV origV ⟨"u1", []⟩ [] = origV :=
  ⟨rfl, rfl, by decide,
    handleStandardForm_validation_fallback envV docV origV ⟨"u1", []⟩ [] formV
      junkV rfl rfl (by decide)⟩

/-! ## Claims about the Field Discovery Pipeline -/

/-- C7 (amended): when the template cannot be loaded (`PDFDocument.load`
throws, as on a 0-byte input), field discovery re-raises the error to its
caller — there is no synthetic-placeholder stage anywhere in discovery, and
no catalog (empty or otherwise) is returned. -/
theorem extractFormFields_load_error (env : DiscoveryEnv) (b : Bytes)
    (sts : ScanStates) (h : env.load b = none) :
    extractFormFields env b sts = .error () := by
  simp only [extractFormFields, h]

/-- The 35-pattern stage of `extractFieldsFromRawPDF` with no matching
pattern. -/
def silentRawOracle : ScanOracle := ⟨35, fun _ _ _ => none⟩

/-- The 10-pattern stage of `extractRomanianFormFields` with no matching
pattern. -/
def silentRomOracle : ScanOracle := ⟨10, fun _ _ _ => none⟩

/-- The environment of an unreadable input: `PDFDocument.load` throws on a
0-byte buffer. -/
def envUnreadable : DiscoveryEnv := ⟨fun _ => none, silentRawOracle, silentRomOracle⟩

/-- C7 (counterexample): on the unreadable 0-byte template, discovery
produces an error, not the claimed stage-4 synthetic-placeholder catalog —
the outer catch of `extractFormFields` ends with `throw error`. -/
theorem extractFormFields_zero_byte_raises :
    extractFormFields envUnreadable ([] : Bytes) ([], []) = .error () := by rfl

/-- C7 (witness): the amended theorem applied to the 0-byte template. -/
theorem extractFormFields_load_error_witness :
    envUnreadable.load ([] : Bytes) = none ∧
    extractFormFields envUnreadable ([] : Bytes) ([], []) = .error () :=
  ⟨rfl, extractFormFields_load_error envUnreadable [] ([], []) rfl⟩

/-- C9: discovery is deterministic and idempotent.  The only mutable state
touched by the pipeline is the regex engines' `lastIndex`, and every scan
loop starts with `pattern.lastIndex = 0` (on pattern objects that are
recreated per call anyway), so the catalog is independent of any residual
engine state: a second run — with whatever state the first run left behind —
returns the same field catalog, same names in the same order. -/
theorem extractFormFields_idempotent (env : DiscoveryEnv) (b : Bytes)
    (sts residual : ScanStates) :
    extractFormFields env b residual = extractFormFields env b sts := by
  simp only [extractFormFields, extractFieldsFromRawPDF,
    extractRomanianFormFields, harvestCands, resetLastIndex]

theorem method1Fields_required (fs : Option (List RawFormField)) :
    ∀ f ∈ method1Fields fs, f.required = false := by
  intro f hf
  cases fs with
  | none => simp [method1Fields] at hf
  | some l =>
    simp only [method1Fields, List.mem_filterMap] at hf
    obtain ⟨raw, _, hmap⟩ := hf
    cases hname : raw.nameOpt with
    | none => rw [hname] at hmap; simp at hmap
    | some n =>
      rw [hname] at hmap
      simp only [Option.map_some'] at hmap
      cases hmap
      rfl

theorem extractFieldsFromRawPDF_required (o : ScanOracle) (b : Bytes)
    (states : List Nat) :
    ∀ f ∈ extractFieldsFromRawPDF o b states, f.required = false := by
  intro f hf
  simp only [extractFieldsFromRawPDF, List.mem_map] at hf
  obtain ⟨n, _, rfl⟩ := hf
  rfl

theorem extractRomanianFormFields_required (o : ScanOracle) (b : Bytes)
    (states : List Nat) :
    ∀ f ∈ extractRomanianFormFields o b states, f.required = false := by
  intro f hf
  simp only [extractRomanianFormFields] at hf
  by_cases hempty : (acceptedNames (harvestCands o b states)).isEmpty
  · rw [if_pos hempty] at hf
    revert f hf
    decide
  · rw [if_neg hempty] at hf
    simp only [List.mem_map] at hf
    obtain ⟨n, _, rfl⟩ := hf
    rfl

/-- Every catalog `extractFormFields` can return is exactly one stage's
output (helper shared by C6 and C10). -/
theorem extractFormFields_stage_output (env : DiscoveryEnv) (b : Bytes)
    (sts : ScanStates) (d : LoadedDoc) (res : List PDFField × Nat)
    (hload : env.load b = some d)
    (h : extractFormFields env b sts = .ok res) :
    res.1 = method1Fields d.form ∨
    res.1 = extractFieldsFromRawPDF env.raw b sts.1 ∨
    res.1 = extractRomanianFormFields env.rom b sts.2 := by
  simp only [extractFormFields, hload] at h
  cases h
  dsimp only
  repeat' split
  all_goals simp

/-- C10: every field descriptor any discovery stage produces — structured
catalog read, raw pattern scan, Romanian-lexicon scan, or the fixed fallback
list — carries `required = false`; a successful run of the pipeline never
marks a field required. -/
theorem extractFormFields_no_required (env : DiscoveryEnv) (b : Bytes)
    (sts : ScanStates) (res : List PDFField × Nat)
    (h : extractFormFields env b sts = .ok res) :
    ∀ f ∈ res.1, f.required = false := by
  intro f hf
  cases hload : env.load b with
  | none =>
    simp only [extractFormFields, hload] at h
    exact Except.noConfusion h
  | some d =>
    rcases extractFormFields_stage_output env b sts d res hload h with h1 | h2 | h3
    · exact method1Fields_required d.form f (h1 ▸ hf)
    · exact extractFieldsFromRawPDF_required env.raw b sts.1 f (h2 ▸ hf)
    · exact extractRomanianFormFields_required env.rom b sts.2 f (h3 ▸ hf)

/-- A minimal readable document with an empty form: Method 1 and Method 2
find nothing, so the pipeline lands on the Romanian fallback catalog. -/
def bytesPlain : Bytes := "%PDF-1.4\n1 0 obj<</Type/Catalog>>endobj\n%%EOF".data

/-- See `bytesPlain`. -/
def docPlain : LoadedDoc := ⟨1, some []⟩

/-- See `bytesPlain`. -/
def envPlain : DiscoveryEnv := ⟨fun _ => some docPlain, silentRawOracle, silentRomOracle⟩

/-- C10 (witness): the pipeline on `bytesPlain` returns the Romanian
fallback catalog, and the theorem instantiated there shows every one of its
26 descriptors has `required = false`. -/
theorem extractFormFields_no_required_witness :
    extractFormFields envPlain bytesPlain ([], []) =
      .ok (romanianFallbackCatalog, 1) ∧
    romanianFallbackCatalog.all (fun f => !f.required) = true := by
  refine ⟨by decide, ?_⟩
  have h := extractFormFields_no_required envPlain bytesPlain ([], [])
    (romanianFallbackCatalog, 1) (by decide)
  exact List.all_eq_true.mpr fun f hf => by simp [h f hf]

/-! ## Claims about the single-document fill boundary -/

/-- C1 (amended): `generateSinglePDF` never raises past its boundary — its
result is a plain byte buffer (the outer catch absorbs every exception) —
and every document-level failure returns the original template bytes: the
result is either exactly the original, or a buffer produced by a successful
save (additionally validated on the standard path).  Individual field-fill
failures are skipped, not escalated, so they leave the engine on the
successful-save branch. -/
theorem generateSinglePDF_safety (env : FillEnv) (templateFileData : Bytes)
    (u : User) (ms : List FieldMapping) :
    generateSinglePDF env templateFileData u ms = templateFileData ∨
    ∃ d pdfBytes, env.load templateFileData = some d ∧
      generateSinglePDF env templateFileData u ms = pdfBytes ∧
      ((isXFAForm templateFileData = true ∧ ∃ fields, d.form = some fields ∧
          env.save d (xfaFill fields u (selectCriticalFields ms 3)).1
            xfaSaveOpts = some pdfBytes) ∨
       (isXFAForm templateFileData = false ∧ ∃ fields, d.form = some fields ∧
          env.save d (standardFill fields u ms).1
            (standardSaveOpts (standardFill fields u ms).2.2) = some pdfBytes ∧
          validateGeneratedPDF env pdfBytes = true)) := by
  by_cases hlen : templateFileData.length = 0
  · left
    simp [generateSinglePDF, hlen]
  · cases hload : env.load templateFileData with
    | none => left; simp [generateSinglePDF, hlen, hload]
    | some d =>
      cases hxfa : isXFAForm templateFileData with
      | true =>
        cases hform : d.form with
        | none =>
          left
          simp [generateSinglePDF, hlen, hload, hxfa, handleXFAForm, hform]
        | some fields =>
          cases hsave : env.save d
              (xfaFill fields u (selectCriticalFields ms 3)).1 xfaSaveOpts with
          | none =>
            left
            simp [generateSinglePDF, hlen, hload, hxfa, handleXFAForm, hform, hsave]
          | some pdfBytes =>
            right
            refine ⟨d, pdfBytes, rfl, ?_, .inl ⟨rfl, fields, hform, hsave⟩⟩
            simp [generateSinglePDF, hlen, hload, hxfa, handleXFAForm, hform, hsave]
      | false =>
        cases hform : d.form with
        | none =>
          left
          simp [generateSinglePDF, hlen, hload, hxfa, handleStandardForm, hform]
        | some fields =>
          cases hsave : env.save d (standardFill fields u ms).1
              (standardSaveOpts (standardFill fields u ms).2.2) with
          | none =>
            left
            simp [generateSinglePDF, hlen, hload, hxfa, handleStandardForm,
              hform, hsave]
          | some pdfBytes =>
            cases hval : validateGeneratedPDF env pdfBytes with
            | false =>
              left
              simp [generateSinglePDF, hlen, hload, hxfa, handleStandardForm,
                hform, hsave, hval]
            | true =>
              right
              refine ⟨d, pdfBytes, rfl, ?_, .inr ⟨rfl, fields, hform, hsave, hval⟩⟩
              simp [generateSinglePDF, hlen, hload, hxfa, handleStandardForm,
                hform, hsave, hval]

/-- Fixture for the C1 counterexample: a dropdown field `Pets` with options
`cat`/`dog`, a mapping whose resolved default value `parrot` matches no
option — an `UnsupportedFieldOperation`-style fill failure — a save oracle
producing a fresh serialization, and an accepting reparse oracle. -/
def pdfBytesC : Bytes :=
  "%PDF-1.4\n1 0 obj<</FT/Ch/T<50657473>/Opt[(cat)(dog)]>>endobj\ntrailer\n%%EOF".data

/-- See `pdfBytesC`. -/
def formC : List FormField := [⟨"Pets", .dropdown, ["cat", "dog"]⟩]

/-- See `pdfBytesC`. -/
def docC : FillDoc := ⟨1, some formC⟩

/-- See `pdfBytesC`: the (re-serialized, hence different) save product. -/
def savedC : Bytes := "%PDF-1.4\n".data ++ List.replicate 1200 'q'

/-- See `pdfBytesC`. -/
def envC : FillEnv := ⟨fun _ => some docC, fun _ _ _ => some savedC, fun _ => true⟩

/-- See `pdfBytesC`: the mapping whose fill attempt fails. -/
def mappingC : FieldMapping := ⟨"Pets", "", "parrot"⟩

theorem savedC_length : savedC.length = 1209 := by rfl

theorem pdfBytesC_length : pdfBytesC.length = 74 := by rfl

/-- C1 (counterexample): an internal fill failure (one field attempted, zero
filled) after which the engine returns the saved, validated bytes — which
differ from the original template bytes.  A fill failure therefore does not
imply that the original buffer is returned, contrary to the claim. -/
theorem generateSinglePDF_fill_failure_not_original :
    (standardFill formC ⟨"u1", []⟩ [mappingC]).2 = (1, 0) ∧
    generateSinglePDF envC pdfBytesC ⟨"u1", []⟩ [mappingC] = savedC ∧
    savedC ≠ pdfBytesC := by
  refine ⟨by decide, by rfl, ?_⟩
  intro h
  have hl : (1209 : Nat) = 74 :=
    pdfBytesC_length ▸ savedC_length ▸ congrArg List.length h
  exact absurd hl (by decide)

/-! ## Claim C6: the sufficiency-gate structure of the cascade

Two concrete, fully traced pipeline runs.  Input A is a six-text-field PDF
whose field names are stored as hex strings (`/T <...>`): Method 1 reads the
six names through pdf-lib, the raw scan can only harvest the hex digit
strings (all rejected by `isValidFieldName`, digits first) plus thirty
`id="qaNN"` attribute values from an embedded stream, and the Romanian
patterns match nothing, so Method 3 lands on the fixed fallback catalog.
Input B is a twelve-radio-group PDF, again hex-named, with no scannable
candidates surviving validation. -/

/-- Two-digit zero-padded decimal (naming helper for the C6 fixtures). -/
def pad2 (n : Nat) : String := (if n < 10 then "0" else "") ++ toString n

/-- The embedded stream of input A: thirty `<w id="qaNN"/>` elements. -/
def idStreamA : String :=
  String.join ((List.range 30).map fun k => "<w id=\"qa" ++ pad2 (k + 1) ++ "\"/>")

/-- The six hex-named text-field objects of input A. -/
def hexObjsA : String :=
  String.join ((List.range 6).map fun k =>
    toString (k + 1) ++ " 0 obj<</FT/Tx/T<616C7068613" ++ toString (k + 1) ++ ">>>endobj\n")

/-- Input A's byte buffer. -/
def bytesA : Bytes :=
  ("%PDF-1.4\n" ++ hexObjsA ++ "7 0 obj<<>>stream\n" ++ idStreamA ++
    "\nendstream endobj\n%%EOF").data

/-- The matches of raw pattern 1 (`/\/T\s*<([^>]+)>/`) on input A: the six
hex name strings — every capture starts with a digit and is rejected by
`isValidFieldName`. -/
def hexMatchesA : List (Nat × Nat × String) :=
  (List.range 6).map fun k =>
    (24 + 40 * k, 40 + 40 * k, "616C7068613" ++ toString (k + 1))

/-- The matches of raw pattern 29 (`/\bid\s*=\s*"([^"]+)"/gi`) on input A:
the thirty `qaNN` attribute values. -/
def idMatchesA : List (Nat × Nat × String) :=
  (List.range 30).map fun k => (270 + 14 * k, 279 + 14 * k, "qa" ++ pad2 (k + 1))

/-- A JavaScript sticky `exec` built from a finite match table
`(start, lastIndexAfter, capture)`: from position `idx`, the first match
starting at or after `idx`. -/
def execOfMatches (table : List (Nat × Nat × String)) (idx : Nat) :
    Option (String × Nat) :=
  (table.find? fun m => idx ≤ m.1).map fun m => (m.2.2, m.2.1)

/-- The raw-scan regex engines on input A. -/
def rawOracleA : ScanOracle :=
  ⟨35, fun _ i idx =>
    if i = 1 then execOfMatches hexMatchesA idx
    else if i = 29 then execOfMatches idMatchesA idx
    else none⟩

/-- Method 1's six pdf-lib text-field handles on input A. -/
def rawFieldsA : List RawFormField :=
  (List.range 6).map fun k => ⟨some ("alpha" ++ toString (k + 1)), "PDFTextField", none⟩

/-- Input A's loaded document. -/
def docA : LoadedDoc := ⟨1, some rawFieldsA⟩

/-- Input A's discovery environment. -/
def envA : DiscoveryEnv := ⟨fun _ => some docA, rawOracleA, silentRomOracle⟩

/-- Method 1's catalog on input A (six text fields). -/
def m1CatalogA : List PDFField :=
  (List.range 6).map fun k => ⟨"alpha" ++ toString (k + 1), .text, false, none⟩

/-- The raw-scan catalog on input A (the thirty `qaNN` fields). -/
def qaCatalogA : List PDFField :=
  (List.range 30).map fun k => ⟨"qa" ++ pad2 (k + 1), .text, false, none⟩

/-- The twelve hex-named radio objects of input B. -/
def hexObjsB : String :=
  String.join ((List.range 12).map fun k =>
    toString (k + 1) ++ " 0 obj<</FT/Btn/T<7262" ++ pad2 (k + 1) ++ ">>>endobj\n")

/-- Input B's byte buffer. -/
def bytesB : Bytes := ("%PDF-1.4\n" ++ hexObjsB ++ "%%EOF").data

/-- The matches of raw pattern 1 on input B: hex digit captures, all
rejected by validation. -/
def hexMatchesB : List (Nat × Nat × String) :=
  (List.range 12).map fun k => (24 + 40 * k, 38 + 40 * k, "7262" ++ pad2 (k + 1))

/-- The raw-scan regex engines on input B. -/
def rawOracleB : ScanOracle :=
  ⟨35, fun _ i idx => if i = 1 then execOfMatches hexMatchesB idx else none⟩

/-- Method 1's twelve pdf-lib radio-group handles on input B. -/
def rawFieldsB : List RawFormField :=
  (List.range 12).map fun k =>
    ⟨some ("rb" ++ toString (k + 1)), "PDFRadioGroup", some ["op1", "op2"]⟩

/-- Input B's loaded document. -/
def docB : LoadedDoc := ⟨1, some rawFieldsB⟩

/-- Input B's discovery environment. -/
def envB : DiscoveryEnv := ⟨fun _ => some docB, rawOracleB, silentRomOracle⟩

/-- Method 1's catalog on input B (twelve radio fields; no scan stage can
reproduce the `radio` type, which `guessFieldType` never assigns). -/
def radioCatalogB : List PDFField :=
  (List.range 12).map fun k =>
    ⟨"rb" ++ toString (k + 1), .radio, false, some ["op1", "op2"]⟩

theorem m1A_eval : method1Fields docA.form = m1CatalogA := by decide

theorem rawA_eval :
    extractFieldsFromRawPDF envA.raw bytesA [] = qaCatalogA := by decide

theorem romA_eval :
    extractRomanianFormFields envA.rom bytesA [] = romanianFallbackCatalog := by decide

theorem m1B_eval : method1Fields docB.form = radioCatalogB := by decide

theorem rawB_eval : extractFieldsFromRawPDF envB.raw bytesB [] = [] := by decide

theorem romB_eval :
    extractRomanianFormFields envB.rom bytesB [] = romanianFallbackCatalog := by decide

theorem extractA_eval :
    extractFormFields envA bytesA ([], []) = .ok (romanianFallbackCatalog, 1) := by
  decide

theorem extractB_eval :
    extractFormFields envB bytesB ([], []) = .ok (radioCatalogB, 1) := by decide

theorem specA_low (t : Nat) (h : t ≤ 6) :
    specSingleThresholdDiscover t envA bytesA ([], []) = some m1CatalogA := by
  have hl : envA.load bytesA = some docA := rfl
  simp only [specSingleThresholdDiscover, hl, m1A_eval]
  rw [if_pos (by rw [show m1CatalogA.length = 6 from by decide]; omega)]

theorem specA_mid (t : Nat) (h6 : 6 < t) (h30 : t ≤ 30) :
    specSingleThresholdDiscover t envA bytesA ([], []) = some qaCatalogA := by
  have hl : envA.load bytesA = some docA := rfl
  simp only [specSingleThresholdDiscover, hl, m1A_eval]
  rw [if_neg (by rw [show m1CatalogA.length = 6 from by decide]; omega)]
  simp only [rawA_eval]
  rw [if_pos (by rw [show qaCatalogA.length = 30 from by decide]; omega)]

theorem specB_high (t : Nat) (h : 12 < t) :
    specSingleThresholdDiscover t envB bytesB ([], []) = some romanianFallbackCatalog := by
  have hl : envB.load bytesB = some docB := rfl
  simp only [specSingleThresholdDiscover, hl, m1B_eval]
  rw [if_neg (by rw [show radioCatalogB.length = 12 from by decide]; omega)]
  simp only [rawB_eval]
  rw [if_neg (by simp; omega)]
  simp only [romB_eval]

/-- C6 (counterexample): the pipeline's escalation is not governed by any
single sufficiency threshold.  On input A, Method 1 yields 6 fields — enough
for the first gate (5) but not the second (10) — and the pipeline returns
Method 3's fallback catalog even though, had the claimed cascade run with
any threshold ≤ 30, an earlier stage (Method 1 for t ≤ 6, the 30-field raw
scan for 7 ≤ t ≤ 30) would already have been sufficient; on input B
(12 fields from Method 1, nothing from the scans) the pipeline stops at
Method 1, which any threshold > 12 forbids.  No threshold explains both
runs. -/
theorem extractFormFields_no_single_threshold :
    extractFormFields envA bytesA ([], []) = .ok (romanianFallbackCatalog, 1) ∧
    extractFormFields envB bytesB ([], []) = .ok (radioCatalogB, 1) ∧
    ¬ ∃ t : Nat,
        specSingleThresholdDiscover t envA bytesA ([], []) =
          some romanianFallbackCatalog ∧
        specSingleThresholdDiscover t envB bytesB ([], []) =
          some radioCatalogB := by
  refine ⟨extractA_eval, extractB_eval, ?_⟩
  rintro ⟨t, hA, hB⟩
  rcases le_or_lt t 6 with h6 | h6
  · rw [specA_low t h6] at hA
    exact absurd (Option.some.inj hA) (by decide)
  · rcases le_or_lt t 30 with h30 | h30
    · rw [specA_mid t h6 h30] at hA
      exact absurd (Option.some.inj hA) (by decide)
    · rw [specB_high t (by omega)] at hB
      exact absurd (Option.some.inj hB) (by decide)

/-- C6 (amended): stages run in the fixed order and the returned catalog is
always exactly one stage's output, never a merge; but there are two distinct
numeric gates, not one threshold: the raw scan runs when Method 1 found
fewer than 5 fields **or** the document is XFA-classified, the
Romanian-lexicon stage runs when the current catalog still has fewer than 10
fields, and an escalated stage's output is adopted only when strictly
larger.  In particular a non-XFA document whose structured catalog already
has at least 10 fields always keeps exactly Method 1's output. -/
theorem extractFormFields_two_gate_cascade (env : DiscoveryEnv) (b : Bytes)
    (sts : ScanStates) (d : LoadedDoc) (res : List PDFField × Nat)
    (hload : env.load b = some d)
    (h : extractFormFields env b sts = .ok res) :
    (res.1 = method1Fields d.form ∨
     res.1 = extractFieldsFromRawPDF env.raw b sts.1 ∨
     res.1 = extractRomanianFormFields env.rom b sts.2) ∧
    (isXFAForm b = false → 10 ≤ (method1Fields d.form).length →
      res.1 = method1Fields d.form) := by
  refine ⟨extractFormFields_stage_output env b sts d res hload h, ?_⟩
  intro hx h10
  simp only [extractFormFields, hload, hx, Bool.or_false, decide_eq_true_eq] at h
  have h5 : ¬ ((method1Fields d.form).length < 5) := by omega
  rw [if_neg h5] at h
  have h10n : ¬ ((method1Fields d.form).length < 10) := by omega
  rw [if_neg h10n] at h
  cases h
  rfl

/-- C6 (witness): the amended theorem applied to input B, whose 10-or-more
field, non-XFA structured catalog stops the cascade at Method 1. -/
theorem extractFormFields_two_gate_cascade_witness :
    envB.load bytesB = some docB ∧
    extractFormFields envB bytesB ([], []) = .ok (radioCatalogB, 1) ∧
    isXFAForm bytesB = false ∧ 10 ≤ (method1Fields docB.form).length ∧
    radioCatalogB = method1Fields docB.form := by
  refine ⟨rfl, extractB_eval, by decide, by decide, ?_⟩
  have h := extractFormFields_two_gate_cascade envB bytesB ([], []) docB
    (radioCatalogB, 1) rfl extractB_eval
  exact h.2 (by decide) (by decide)

/-! ## Claim C8: batch isolation -/

/-- Whether the per-record generation of record `i` threw (`true` = the
`catch` arm of the batch loop ran for that record). -/
def genThrew (gen : Nat → User → Except String Bytes) (p : Nat × User) : Bool :=
  match gen p.1 p.2 with
  | .error _ => true
  | .ok _ => false

theorem isRecordEntry_bulkEntryFor (gen : Nat → User → Except String Bytes)
    (ms : List FieldMapping) (sectionName : String) (p : Nat × User) :
    isRecordEntry (bulkEntryFor gen ms sectionName p) = true := by
  rcases p with ⟨i, u⟩
  simp only [bulkEntryFor]
  cases gen i u <;> rfl

theorem isErrorEntry_bulkEntryFor (gen : Nat → User → Except String Bytes)
    (ms : List FieldMapping) (sectionName : String) (p : Nat × User) :
    isErrorEntry (bulkEntryFor gen ms sectionName p) = genThrew gen p := by
  rcases p with ⟨i, u⟩
  simp only [bulkEntryFor, genThrew]
  cases gen i u <;> rfl

/-- C8: in a batch of `N` records where exactly one record's fill throws,
the produced archive has exactly `N` per-record entries of which exactly one
is an error entry — the remaining records are all processed and filed — and
the progress stream has `N + 1` events ending with
`{current: N, total: N, status: completed}`. -/
theorem generateBulkPDFs_batch_isolation
    (gen : Nat → User → Except String Bytes) (users : List User)
    (ms : List FieldMapping) (sectionName : String)
    (herr : users.enum.countP (genThrew gen) = 1) :
    (generateBulkPDFs gen users ms sectionName).1.countP isRecordEntry =
      users.length ∧
    (generateBulkPDFs gen users ms sectionName).1.countP isErrorEntry = 1 ∧
    (generateBulkPDFs gen users ms sectionName).2.getLast? =
      some ⟨users.length, users.length, "completed"⟩ ∧
    (generateBulkPDFs gen users ms sectionName).2.length = users.length + 1 := by
  refine ⟨?_, ?_, ?_, ?_⟩
  · simp only [generateBulkPDFs, List.countP_append, List.countP_map]
    have hall : (users.enum.countP (isRecordEntry ∘ bulkEntryFor gen ms sectionName)) =
        users.enum.length :=
      List.countP_eq_length.mpr fun p _ => isRecordEntry_bulkEntryFor gen ms sectionName p
    rw [hall, List.enum_length]
    simp [isRecordEntry, List.countP_cons]
  · simp only [generateBulkPDFs, List.countP_append, List.countP_map]
    have hcong : (users.enum.countP (isErrorEntry ∘ bulkEntryFor gen ms sectionName)) =
        users.enum.countP (genThrew gen) :=
      List.countP_congr fun p _ => by
        simp [Function.comp, isErrorEntry_bulkEntryFor gen ms sectionName p]
    rw [hcong, herr]
    simp [isErrorEntry, List.countP_cons]
  · simp [generateBulkPDFs, List.getLast?_concat]
  · simp [generateBulkPDFs]

/-- Fixture for the C8 witness: three records of which exactly the second
throws during fill. -/
def usersW : List User := [⟨"ua", []⟩, ⟨"ub", []⟩, ⟨"uc", []⟩]

/-- See `usersW`: record 1 is constructed to throw. -/
def genW : Nat → User → Except String Bytes :=
  fun i _ => if i = 1 then .error "boom" else .ok "%PDF-1.4 ok".data

/-- C8 (witness): the batch-isolation theorem applied to the three-record
batch with one throwing record. -/
theorem generateBulkPDFs_batch_isolation_witness :
    usersW.enum.countP (genThrew genW) = 1 ∧
    ((generateBulkPDFs genW usersW [] "sec").1.countP isRecordEntry = 3 ∧
     (generateBulkPDFs genW usersW [] "sec").1.countP isErrorEntry = 1 ∧
     (generateBulkPDFs genW usersW [] "sec").2.getLast? = some ⟨3, 3, "completed"⟩ ∧
     (generateBulkPDFs genW usersW [] "sec").2.length = 3 + 1) :=
  ⟨by decide, generateBulkPDFs_batch_isolation genW usersW [] "sec" (by decide)⟩

end PDFGen
